import Mathlib

/-!
Verification development for the BeelaBackend reminder/assistant backend.

The definitions below are a shallow embedding, in Lean 4, of the scheduling
and location-trigger core of the repository:

* `src/services/aiScheduler.js` — `findSmartSlot`, `processBackgroundAI`
* `src/utils/ttsService.js` — `buildNotificationText`, `computeTextHash`,
  `ensureReminderTTS`
* `src/controllers/locationController.js` — `haversineMeters`,
  `hasCollisionWithinFiveMin`, `scanAndTrigger`
* the Gemini schedule suggestion capability (`suggestFullScheduleWithGemini`)

JavaScript timestamps (`Date.getTime()`) are modelled as `Int` milliseconds.
External capabilities (Gemini, Places, ElevenLabs) are modelled as explicit
function parameters, so that a call that throws, returns nothing, or returns a
value is an ordinary case split.  IEEE-754 transcendental functions used by the
haversine formula are modelled by a record of exact rational stand-ins
(`FloatOps`); every numeric comparison the claims depend on happens on `Int`
or `ℚ` after `Math.round`, where the float computation is exact at the
granularity the claims talk about.
-/

namespace Beela

/-- Milliseconds since the Unix epoch, as returned by JS `Date.getTime()`. -/
abbrev Millis := Int

/-- One hour in milliseconds (`60 * 60 * 1000` in `findSmartSlot`). -/
def msPerHour : Int := 60 * 60 * 1000

/-- One day in milliseconds. -/
def msPerDay : Int := 24 * 60 * 60 * 1000

/-- The 7-day lookahead horizon used by the scheduler, in milliseconds. -/
def horizonMs : Int := 7 * 24 * 60 * 60 * 1000

/-- JS `Date.prototype.getHours` for a timestamp `t`, in an environment whose
local timezone is `tzMin` minutes east of UTC: the hour-of-day of the local
calendar rendering of `t`. -/
def jsGetHours (tzMin : Int) (t : Millis) : Int :=
  ((t + tzMin * 60000).fdiv msPerHour).emod 24

/-- JS `Date.prototype.getDay` (0 = Sunday .. 6 = Saturday) for timestamp `t`
with local timezone offset `tzMin` minutes east of UTC.  The Unix epoch fell on
a Thursday, weekday index 4. -/
def jsGetDay (tzMin : Int) (t : Millis) : Int :=
  (((t + tzMin * 60000).fdiv msPerDay) + 4).emod 7

/-- Weekday names in the order used by `getDayString` in
`locationController.js`. -/
def dayNames : List String :=
  ["Sunday", "Monday", "Tuesday", "Wednesday", "Thursday", "Friday", "Saturday"]

/-- The `getDayString` helper of `locationController.js`: weekday name of the
current local date. -/
def getDayString (tzMin : Int) (t : Millis) : String :=
  (dayNames.getD (jsGetDay tzMin t).toNat "")

/-- JS `Math.round` on an exact rational: round half away from zero is
`⌊x + 1/2⌋` for the non-negative values a distance can take (JS itself rounds
half towards +∞, which is the same function). -/
def jsRound (q : ℚ) : Int :=
  Int.floor (q + 1 / 2)

/-- Truthiness of a JS string-or-undefined value: `undefined`, `null` and the
empty string are falsy. -/
def jsTruthyStr : Option String → Bool
  | some s => s != ""
  | none => false

/-- JS `a || b` on string-or-undefined values. -/
def jsOrStr (a b : Option String) : Option String :=
  if jsTruthyStr a then a else b

/-- JS template interpolation of a string-or-undefined value. -/
def strOrUndefined : Option String → String
  | some s => s
  | none => "undefined"

/-! ## Data model (`src/models/reminderModel.js`) -/

/-- The `type` enum of the reminder schema. -/
inductive RKind
  | Task
  | Meeting
  | Location
  deriving DecidableEq, Repr

/-- The `scheduleTime` subdocument: `minutesBeforeStart` for one-day items,
`fixedTime` (an HH:mm string) for routines. -/
structure ScheduleTime where
  minutesBeforeStart : Option Int
  fixedTime : Option String
  deriving DecidableEq, Repr

/-- The `triggeredLocation` subdocument written by a successful location
trigger. -/
structure TriggeredLocation where
  lat : Option ℚ
  lng : Option ℚ
  placeId : Option String
  name : Option String
  rating : Option ℚ
  deriving DecidableEq, Repr

/-- The `tts.audio` subdocument: a stored audio blob. -/
structure TTSAudio where
  data : List Nat
  contentType : String
  size : Nat
  deriving DecidableEq, Repr

/-- The `tts` subdocument of a reminder. -/
structure TTSRecord where
  voiceId : Option String
  textHash : Option String
  audio : Option TTSAudio
  status : String
  generatedAt : Option Millis
  deriving DecidableEq, Repr

/-- The slice of the user document that the notification text builder reads. -/
structure UserInfo where
  fullname : Option String
  deriving DecidableEq, Repr

/-- The reminder document, restricted to the fields the scheduling and
trigger core reads or writes. -/
structure Reminder where
  id : Nat
  type : RKind
  title : String
  description : String
  startDate : Option Millis
  isManualSchedule : Bool
  scheduleType : Option String
  scheduleDays : Option (List Int)
  scheduleTime : Option ScheduleTime
  notificationPreferenceMinutes : Int
  aiSuggested : Bool
  aiNotificationLine : Option String
  day : Option String
  status : String
  lastTriggeredAt : Option Millis
  triggeredLocation : Option TriggeredLocation
  isCompleted : Bool
  locationName : Option String
  tts : Option TTSRecord
  deriving DecidableEq, Repr

/-! ## Speech stage (`src/utils/ttsService.js`) -/

/-- JS `user?.fullname?.split(' ')[0] || 'there'` in `buildNotificationText`. -/
def firstNameOf : Option UserInfo → String
  | some u =>
    match u.fullname with
    | some fn =>
      match (fn.splitOn " ").head? with
      | some s => if s = "" then "there" else s
      | none => "there"
    | none => "there"
  | none => "there"

/-- The `buildNotificationText` function of `ttsService.js`: the cached
`aiNotificationLine` wins when truthy, otherwise a deterministic template
keyed by the reminder kind. -/
def buildNotificationText (r : Reminder) (user : Option UserInfo) : String :=
  if jsTruthyStr r.aiNotificationLine then
    (r.aiNotificationLine.getD "")
  else
    let name := firstNameOf user
    match r.type with
    | RKind.Task => "Hey " ++ name ++ ", reminder: " ++ r.title ++ "."
    | RKind.Meeting => "Hey " ++ name ++ ", reminder for meeting: " ++ r.title ++ "."
    | RKind.Location =>
      let loc :=
        if jsTruthyStr r.locationName then (r.locationName.getD "") else "your saved place"
      "Hey " ++ name ++ ", you are near " ++ loc ++ "."

/-- The `computeTextHash` function of `ttsService.js`: the SHA-256 hex digest
of the string `voiceId ++ "::" ++ text`.  The digest is modelled as an
injective fingerprint of the same preimage string; the code only ever compares
hashes for equality. -/
def computeTextHash (text voiceId : String) : String :=
  "sha256::" ++ voiceId ++ "::" ++ text

/-- Voice selection in `ensureReminderTTS`:
`overrideVoiceId || reminder.tts?.voiceId || process.env.ELEVENLABS_DEFAULT_VOICE_ID`. -/
def resolveVoiceId (overrideVoiceId : Option String) (r : Reminder)
    (defaultVoiceId : Option String) : Option String :=
  jsOrStr overrideVoiceId (jsOrStr (r.tts.bind TTSRecord.voiceId) defaultVoiceId)

/-- The short-circuit test of `ensureReminderTTS`:
`reminder.tts?.textHash === hash && reminder.tts?.status === 'ready' && reminder.tts?.audio?.data?.length`. -/
def ttsUpToDate (r : Reminder) (hash : String) : Bool :=
  match r.tts with
  | some t =>
    t.textHash == some hash && t.status == "ready" &&
      (match t.audio with
       | some a => a.data.length != 0
       | none => false)
  | none => false

/-- Result of one `ensureReminderTTS` call: the persisted reminder state, the
number of speech-synthesis calls made, and whether the function threw (it
re-throws the synthesis error after persisting `status = 'failed'`). -/
structure TTSCallResult where
  reminder : Reminder
  synthCalls : Nat
  threw : Bool
  deriving DecidableEq, Repr

/-- The `ensureReminderTTS` function of `ttsService.js`.  The external
ElevenLabs call `generateElevenLabsAudio` is the parameter `synth`, mapping
(text, voiceId) to the returned (bytes, contentType), or `none` when the call
throws (missing key, missing voice id, HTTP failure). -/
def ensureReminderTTS (synth : String → String → Option (List Nat × String))
    (defaultVoiceId overrideVoiceId : Option String)
    (r : Reminder) (user : Option UserInfo) (now : Millis) : TTSCallResult :=
  let text := buildNotificationText r user
  let voiceId := resolveVoiceId overrideVoiceId r defaultVoiceId
  let hash := computeTextHash text (strOrUndefined voiceId)
  if ttsUpToDate r hash then
    -- already generated and the hash matches: skip
    ⟨r, 0, false⟩
  else
    -- mark pending (audio of a previous record, if any, is not cleared)
    let prevAudio := match r.tts with
      | some t => t.audio
      | none => none
    let pending : TTSRecord :=
      { voiceId := voiceId, textHash := some hash, audio := prevAudio,
        status := "pending", generatedAt := none }
    let rPending := { r with tts := some pending }
    match synth text (strOrUndefined voiceId) with
    | some (buffer, contentType) =>
      ⟨{ rPending with
           tts := some { pending with
             audio := some ⟨buffer, contentType, buffer.length⟩,
             status := "ready",
             generatedAt := some now } },
        1, false⟩
    | none =>
      ⟨{ rPending with tts := some { pending with status := "failed" } }, 1, true⟩

/-! ## Heuristic slot finder (`src/services/aiScheduler.js`, `findSmartSlot`) -/

/-- The hourly candidate slots scanned by `findSmartSlot`: the loop starts at
`now + 1h` and advances one hour at a time while `d <= now + 7d`, so it visits
exactly `now + k * 1h` for `k = 1 .. 168`. -/
def slotTimes (now : Millis) : List Millis :=
  (List.range 168).map (fun (i : Nat) => now + ((i : Int) + 1) * msPerHour)

/-- The busy set of `findSmartSlot`: start dates of the existing reminders of
the user that fall inside `[now, now + 7d]` (the Mongo query range), with
missing start dates dropped.  Membership via the ISO-8601 rendering in the JS
`Set` coincides with millisecond equality. -/
def busyTimes (now : Millis) (existing : List (Option Millis)) : List Millis :=
  (existing.filterMap id).filter (fun t => now ≤ t && t ≤ now + horizonMs)

/-- The per-slot acceptance test of the `findSmartSlot` loop: local hour inside
`[9, 18)` and not colliding with a busy start date. -/
def slotFree (tzMin : Int) (busy : List Millis) (d : Millis) : Bool :=
  9 ≤ jsGetHours tzMin d && jsGetHours tzMin d < 18 && !(busy.contains d)

/-- The `findSmartSlot` heuristic of `aiScheduler.js`: the first hourly slot in
`(now, now + 7d]` whose local hour is in `[9, 18)` and that does not collide
with an existing start date; `null` when every slot is taken or out of
window.  `existing` is the list of `startDate` fields of the reminders of the
user (the Mongo query filters by user and by the `[now, now+7d]` range; the
range filter is part of `busyTimes`). -/
def findSmartSlot (tzMin : Int) (now : Millis) (existing : List (Option Millis)) :
    Option Millis :=
  (slotTimes now).find? (slotFree tzMin (busyTimes now existing))

/-! ## Gemini schedule suggestion (`suggestFullScheduleWithGemini`) -/

/-- Outcome of a call to an optional external Gemini capability: the service
module failed to load (or the function is absent), the call threw, or the call
returned a value (possibly `null`). -/
inductive GeminiCall (α : Type)
  | unavailable : GeminiCall α
  | throws : GeminiCall α
  | returns : Option α → GeminiCall α
  deriving DecidableEq, Repr

/-- The raw `scheduleTime` object parsed out of the Gemini JSON response. -/
structure GeminiTimeRaw where
  minutesBeforeStart : Option Int
  fixedTime : Option String
  deriving DecidableEq, Repr

/-- The raw JSON object parsed out of the Gemini response, before the
sanitization at the end of `suggestFullScheduleWithGemini`.  Fields that are
absent or of the wrong JS type are `none`. -/
structure GeminiRawSchedule where
  startDateISO : Option String
  scheduleType : Option String
  scheduleDays : Option (List Int)
  scheduleTime : Option GeminiTimeRaw
  deriving DecidableEq, Repr

/-- The sanitized schedule object built by `suggestFullScheduleWithGemini`
(and also the shape the fallback path of `processBackgroundAI` builds). -/
structure FullSchedule where
  startDateISO : Option String
  scheduleType : String
  scheduleDays : List Int
  minutesBeforeStart : Option Int
  fixedTime : Option String
  deriving DecidableEq, Repr

/-- Sanitization step of `suggestFullScheduleWithGemini` (the `schedule`
object literal): `startDateISO: obj.startDateISO || null`,
`scheduleType: obj.scheduleType === 'routine' ? 'routine' : 'one-day'`,
integer-range filtering of `scheduleDays`, and typed extraction of
`scheduleTime`. -/
def sanitizeSchedule (raw : GeminiRawSchedule) : FullSchedule :=
  { startDateISO := if jsTruthyStr raw.startDateISO then raw.startDateISO else none,
    scheduleType := if raw.scheduleType = some "routine" then "routine" else "one-day",
    scheduleDays :=
      match raw.scheduleDays with
      | some l => l.filter (fun n => 0 ≤ n && n ≤ 6)
      | none => [],
    minutesBeforeStart := raw.scheduleTime.bind GeminiTimeRaw.minutesBeforeStart,
    fixedTime :=
      match raw.scheduleTime with
      | some st => st.fixedTime
      | none => none }

/-- Validation step of `suggestFullScheduleWithGemini` (the code block under
the `Basic validity checks` comment).  `parseDate` is JS `new Date(string)`,
returning `none` for an Invalid Date (`isNaN(d.getTime())`).  For a one-day
decision the code requires a present `startDateISO` that parses and is
strictly after `now`; for a routine decision it requires a truthy
`fixedTime`.  No other check is performed. -/
def validateGeminiSchedule (parseDate : String → Option Millis) (now : Millis)
    (raw : GeminiRawSchedule) : Option FullSchedule :=
  let schedule := sanitizeSchedule raw
  if schedule.scheduleType = "one-day" then
    match schedule.startDateISO with
    | none => none
    | some str =>
      match parseDate str with
      | none => none
      | some d => if d ≤ now then none else some schedule
  else
    if jsTruthyStr schedule.fixedTime then some schedule else none

/-! ## Enrichment pass (`src/services/aiScheduler.js`, `processBackgroundAI`) -/

/-- The schedule object as read by `processBackgroundAI` from the Gemini
suggestion (or built by the fallback path).  ISO date strings are carried
already parsed to milliseconds: `startDate = none` corresponds to
`startDateISO: null`, and `startDate = some t` to a (truthy) ISO rendering of
`t`, which `new Date(...)` parses back to `t`. -/
structure ParsedSchedule where
  startDate : Option Millis
  scheduleType : Option String
  scheduleDays : Option (List Int)
  scheduleTime : Option ScheduleTime
  deriving DecidableEq, Repr

/-- Result of the schedule-resolution block of `processBackgroundAI`: the
schedule to apply (if any) and the observability tag
(`'gemini'` / `'fallback'` / `null`). -/
structure ScheduleResolution where
  schedule : Option ParsedSchedule
  source : Option String
  deriving DecidableEq, Repr

/-- The schedule-resolution block of `processBackgroundAI` (steps 1 and 2): a
Gemini result is used as-is when the call returned a non-null schedule; when
the capability is unavailable, throws, or returns `null`, the deterministic
`findSmartSlot` heuristic supplies a one-day schedule with
`minutesBeforeStart = 10`, or nothing at all. -/
def resolveSchedule (gSched : GeminiCall ParsedSchedule) (tzMin : Int) (now : Millis)
    (existing : List (Option Millis)) : ScheduleResolution :=
  match gSched with
  | GeminiCall.returns (some s) => ⟨some s, some "gemini"⟩
  | _ =>
    match findSmartSlot tzMin now existing with
    | some t =>
      ⟨some ⟨some t, some "one-day", some [], some ⟨some 10, none⟩⟩, some "fallback"⟩
    | none => ⟨none, none⟩

/-- The mutation block of `processBackgroundAI` applying a resolved schedule
to the reminder (`if (schedule) { ... }`). -/
def applySchedule (r : Reminder) (s : ParsedSchedule) : Reminder :=
  let r1 :=
    match s.startDate with
    | some t => { r with startDate := some t }
    | none => r
  let r2 :=
    { r1 with
        scheduleType := if jsTruthyStr s.scheduleType then s.scheduleType else none,
        scheduleDays := s.scheduleDays,
        scheduleTime := s.scheduleTime }
  let r3 :=
    if r2.scheduleType = some "one-day" then
      { r2 with
          notificationPreferenceMinutes :=
            match s.scheduleTime with
            | some st => st.minutesBeforeStart.getD 10
            | none => 10 }
    else r2
  { r3 with aiSuggested := true }

/-- The notification-line block of `processBackgroundAI`: a truthy Gemini line
is assigned; otherwise, when the current `aiNotificationLine` is falsy, the
deterministic `buildNotificationText` template is assigned.  Returns the
updated reminder and the `lineSource` tag. -/
def lineStage (gLine : GeminiCall String) (r : Reminder) (user : Option UserInfo) :
    Reminder × Option String :=
  let r1 :=
    match gLine with
    | GeminiCall.returns (some l) =>
      if l != "" then { r with aiNotificationLine := some l } else r
    | _ => r
  let src1 : Option String :=
    match gLine with
    | GeminiCall.returns (some l) => if l != "" then some "gemini" else none
    | _ => none
  if jsTruthyStr r1.aiNotificationLine then (r1, src1)
  else
    ({ r1 with aiNotificationLine := some (buildNotificationText r1 user) },
      some (src1.getD "fallback"))

/-- Result of one `processBackgroundAI` run: the persisted reminder and the
metadata tags, plus whether the TTS stage ran. -/
structure AIProcessResult where
  reminder : Reminder
  scheduleSource : Option String
  lineSource : Option String
  ttsRan : Bool
  deriving DecidableEq, Repr

/-- The schedule-stage block of `processBackgroundAI` (the outer
`if (!rem.isManualSchedule && rem.type === 'Task' && !rem.startDate)`):
resolve and apply a schedule only for non-manual, unscheduled Tasks. -/
def scheduleStage (gSched : GeminiCall ParsedSchedule) (tzMin : Int) (now : Millis)
    (existing : List (Option Millis)) (r : Reminder) : Reminder × Option String :=
  if !r.isManualSchedule && r.type == RKind.Task && r.startDate.isNone then
    let res := resolveSchedule gSched tzMin now existing
    match res.schedule with
    | some s => (applySchedule r s, res.source)
    | none => (r, res.source)
  else (r, none)

/-- The `processBackgroundAI` body: schedule stage, notification-line stage,
then the TTS stage — the latter only when a `startDate` is present, and with
its exception swallowed (`catch {}`). -/
def processBackgroundAI (gSched : GeminiCall ParsedSchedule) (gLine : GeminiCall String)
    (synth : String → String → Option (List Nat × String)) (defaultVoiceId : Option String)
    (tzMin : Int) (now : Millis) (existing : List (Option Millis))
    (r : Reminder) (user : Option UserInfo) : AIProcessResult :=
  let step1 : Reminder × Option String := scheduleStage gSched tzMin now existing r
  let step2 := lineStage gLine step1.1 user
  if step2.1.startDate.isSome then
    ⟨(ensureReminderTTS synth defaultVoiceId none step2.1 user now).reminder,
      step1.2, step2.2, true⟩
  else
    ⟨step2.1, step1.2, step2.2, false⟩

/-! ## Location trigger engine (`src/controllers/locationController.js`) -/

/-- Record of exact rational stand-ins for the IEEE-754 `Math` functions used
by `haversineMeters` (`Math.sin`, `Math.cos`, `Math.atan2`, `Math.sqrt`,
`Math.PI`). -/
structure FloatOps where
  sin : ℚ → ℚ
  cos : ℚ → ℚ
  atan2 : ℚ → ℚ → ℚ
  sqrt : ℚ → ℚ
  pi : ℚ

/-- The `haversineMeters` function of `locationController.js`: great-circle
distance on a sphere of radius 6,371,000 m. -/
def haversineMeters (F : FloatOps) (lat1 lon1 lat2 lon2 : ℚ) : ℚ :=
  let toRad := fun (d : ℚ) => d * F.pi / 180
  let R : ℚ := 6371000
  let dLat := toRad (lat2 - lat1)
  let dLon := toRad (lon2 - lon1)
  let a := F.sin (dLat / 2) * F.sin (dLat / 2) +
    F.cos (toRad lat1) * F.cos (toRad lat2) * F.sin (dLon / 2) * F.sin (dLon / 2)
  let c := 2 * F.atan2 (F.sqrt a) (F.sqrt (1 - a))
  R * c

/-- The distance ceiling of `scanAndTrigger`:
`MAX_METERS = Math.max(10, parseInt(process.env.LOCATION_MAX_TRIGGER_METERS || '60', 10))`.
`envValue` is the parsed environment override, `none` when the variable is
unset (so the literal `'60'` is parsed). -/
def maxMeters (envValue : Option Int) : Int :=
  max 10 (envValue.getD 60)

/-- The normalized place returned by the places-lookup capability
(`nearbyBestPlaceByKeyword`), fields as read by `scanAndTrigger`. -/
structure Place where
  place_id : Option String
  name : Option String
  rating : Option ℚ
  locLat : Option ℚ
  locLng : Option ℚ
  deriving DecidableEq, Repr

/-- Outcome of one places-lookup call: the call threw (skip `places_error`),
or returned `null` / a best place. -/
inductive PlacesResult
  | error : Option String → PlacesResult
  | ok : Option Place → PlacesResult
  deriving DecidableEq, Repr

/-- The `hasCollisionWithinFiveMin` helper of `locationController.js`:
does the user own a non-completed Task/Meeting whose `startDate` lies within
`[now - 5min, now + 5min]` (both ends inclusive, per the `$gte`/`$lte`
query)?  `rs` is the list of reminder documents of the user. -/
def hasCollisionWithinFiveMin (rs : List Reminder) (now : Millis) : Bool :=
  rs.any (fun x =>
    (x.type == RKind.Task || x.type == RKind.Meeting) &&
    !x.isCompleted &&
    (match x.startDate with
     | some s => now - 5 * 60 * 1000 ≤ s && s ≤ now + 5 * 60 * 1000
     | none => false))

/-- The legacy-day branch of the day filter:
`r.day && r.day !== dayStr`. -/
def legacyDayMismatch (tzMin : Int) (now : Millis) (r : Reminder) : Bool :=
  match r.day with
  | some d => d != "" && d != getDayString tzMin now
  | none => false

/-- The day filter of `scanAndTrigger`: a non-empty `scheduleDays` array must
contain the weekday index of today, otherwise the legacy `day` string (when
truthy) must equal the name of today. -/
def dayMismatch (tzMin : Int) (now : Millis) (r : Reminder) : Bool :=
  match r.scheduleDays with
  | some l =>
    if l.length > 0 then !(l.contains (jsGetDay tzMin now))
    else legacyDayMismatch tzMin now r
  | none => legacyDayMismatch tzMin now r

/-- The anti-spam throttle of `scanAndTrigger`: blocked when `lastTriggeredAt`
is set and `(now - lastTriggeredAt) / 60000 < 90` (JS float division modelled
as exact rational division). -/
def throttleBlocked (now : Millis) (r : Reminder) : Bool :=
  match r.lastTriggeredAt with
  | some T => ((now - T : ℚ) / 60000) < 90
  | none => false

/-- The `minutesSince` value reported with an `anti_spam_window` skip. -/
def minutesSince (now : Millis) (r : Reminder) : ℚ :=
  match r.lastTriggeredAt with
  | some T => (now - T : ℚ) / 60000
  | none => 0

/-- The reminder update persisted by a successful trigger (the `update`
object): `lastTriggeredAt = now`, `status` preserved only when already
`expired`, and the matched place recorded in `triggeredLocation`. -/
def applyTriggerUpdate (now : Millis) (p : Place) (r : Reminder) : Reminder :=
  { r with
      lastTriggeredAt := some now,
      status := if r.status = "expired" then "expired" else "active",
      triggeredLocation :=
        some ⟨p.locLat, p.locLng, p.place_id, p.name, p.rating⟩ }

/-- Per-candidate outcome pushed onto the `out` array by `scanAndTrigger`,
one constructor per push site. -/
inductive ScanOutcome
  | dayMismatchSkip : ScanOutcome
  | antiSpamWindow : ℚ → ScanOutcome
  | noKeyword : ScanOutcome
  | placesError : Option String → ScanOutcome
  | noPlacesMatch : ScanOutcome
  | tooFar : Option Int → Int → ScanOutcome
  | collision : Int → ScanOutcome
  | triggered : Int → Reminder → Option String → ScanOutcome
  deriving DecidableEq, Repr

/-- The per-scan environment of `scanAndTrigger`: caller coordinates, parsed
configuration, the user reminder documents (read by the collision query), and
the external capabilities. -/
structure ScanEnv where
  F : FloatOps
  tzMin : Int
  now : Millis
  lat : ℚ
  lng : ℚ
  envMaxMeters : Option Int
  places : String → PlacesResult
  gLine : Nat → GeminiCall String
  synth : String → String → Option (List Nat × String)
  defaultVoiceId : Option String
  userReminders : List Reminder
  user : Option UserInfo

/-- The collision gate and trigger tail of one candidate (after the distance
gate passed): skip with `collision` and a 6-minute retry hint when a
Task/Meeting is imminent; otherwise persist the trigger update, best-effort
Gemini line, best-effort TTS (the 2-second poll of the source is never
entered because `ensureReminderTTS` always leaves a `textHash` behind), and
report the candidate as triggered. -/
def collisionStep (env : ScanEnv) (r : Reminder) (p : Place) (d : Int) : ScanOutcome :=
  if hasCollisionWithinFiveMin env.userReminders env.now then
    ScanOutcome.collision (6 * 60 * 1000)
  else
    let updated := applyTriggerUpdate env.now p r
    let r1 :=
      match env.gLine r.id with
      | GeminiCall.returns (some l) =>
        if l != "" then { updated with aiNotificationLine := some l } else updated
      | _ => updated
    let ensured := ensureReminderTTS env.synth env.defaultVoiceId none r1 env.user env.now
    let textHash :=
      if ensured.threw then none else ensured.reminder.tts.bind TTSRecord.textHash
    ScanOutcome.triggered d ensured.reminder textHash

/-- The distance gate of one candidate: round the haversine distance between
the caller and the resolved place; a missing coordinate or a rounded distance
strictly above `MAX_METERS` is a `too_far` skip. -/
def distanceStep (env : ScanEnv) (r : Reminder) (p : Place) : ScanOutcome :=
  match p.locLat, p.locLng with
  | some plat, some plng =>
    let d := jsRound (haversineMeters env.F env.lat env.lng plat plng)
    if d > maxMeters env.envMaxMeters then
      ScanOutcome.tooFar (some d) (maxMeters env.envMaxMeters)
    else collisionStep env r p d
  | _, _ => ScanOutcome.tooFar none (maxMeters env.envMaxMeters)

/-- The places-lookup step of one candidate: a lookup failure is a
`places_error` skip, an empty result a `no_places_match` skip. -/
def placesStep (env : ScanEnv) (r : Reminder) : ScanOutcome :=
  match env.places r.title with
  | PlacesResult.error m => ScanOutcome.placesError m
  | PlacesResult.ok none => ScanOutcome.noPlacesMatch
  | PlacesResult.ok (some p) => distanceStep env r p

/-- The body of the `for (const r of reminders)` loop of `scanAndTrigger`:
day filter, throttle, keyword, places lookup, distance gate, collision gate,
then the trigger tail.  Exactly one outcome per candidate. -/
def processCandidate (env : ScanEnv) (r : Reminder) : ScanOutcome :=
  if dayMismatch env.tzMin env.now r then ScanOutcome.dayMismatchSkip
  else if throttleBlocked env.now r then ScanOutcome.antiSpamWindow (minutesSince env.now r)
  else if r.title == "" then ScanOutcome.noKeyword
  else placesStep env r

/-- The candidate query of `scanAndTrigger`: active, not completed Location
reminders of the caller. -/
def scanCandidates (rs : List Reminder) : List Reminder :=
  rs.filter (fun r => r.type == RKind.Location && !r.isCompleted && r.status != "completed")

/-- The `scanAndTrigger` loop: the ordered list of per-candidate results
(reminder id paired with the outcome). -/
def scanAndTrigger (env : ScanEnv) (rs : List Reminder) : List (Nat × ScanOutcome) :=
  (scanCandidates rs).map (fun r => (r.id, processCandidate env r))

/-! ## Helper lemmas -/

/-- `ensureReminderTTS` only ever writes the `tts` subdocument. -/
theorem ensureReminderTTS_tts_only (synth : String → String → Option (List Nat × String))
    (dv ov : Option String) (r : Reminder) (user : Option UserInfo) (now : Millis) :
    ∃ t, (ensureReminderTTS synth dv ov r user now).reminder = { r with tts := t } := by
  unfold ensureReminderTTS
  dsimp only
  split
  · exact ⟨r.tts, rfl⟩
  · split
    · exact ⟨_, rfl⟩
    · exact ⟨_, rfl⟩

/-- The notification text does not depend on the `tts` subdocument. -/
theorem buildNotificationText_tts_irrel (r : Reminder) (t : Option TTSRecord)
    (user : Option UserInfo) :
    buildNotificationText { r with tts := t } user = buildNotificationText r user := rfl

/-- The line stage only ever writes `aiNotificationLine`. -/
theorem lineStage_line_only (g : GeminiCall String) (r : Reminder) (user : Option UserInfo) :
    ∃ l, (lineStage g r user).1 = { r with aiNotificationLine := l } := by
  unfold lineStage
  dsimp only
  split
  · split
    · split
      · exact ⟨_, rfl⟩
      · exact ⟨r.aiNotificationLine, rfl⟩
    · exact ⟨r.aiNotificationLine, rfl⟩
  · split
    · split
      · exact ⟨_, rfl⟩
      · exact ⟨_, rfl⟩
    · exact ⟨_, rfl⟩

/-- When the current line is truthy, the line stage leaves the reminder
untouched whenever the Gemini line capability supplied no truthy line. -/
theorem lineStage_keeps_truthy_line (g : GeminiCall String) (r : Reminder)
    (user : Option UserInfo)
    (hline : jsTruthyStr r.aiNotificationLine = true)
    (hfail : g = GeminiCall.throws ∨ g = GeminiCall.unavailable ∨
      g = GeminiCall.returns none) :
    lineStage g r user = (r, none) := by
  rcases hfail with h | h | h <;> subst h <;> simp [lineStage, hline]

/-- JS `Math.round` of an integer-valued rational is that integer. -/
theorem jsRound_intCast (m : Int) : jsRound (m : ℚ) = m := by
  unfold jsRound
  rw [Int.floor_eq_iff]
  constructor
  · norm_num
  · norm_num

/-- The throttle predicate in milliseconds: the rational-division comparison
of the source is the integer comparison `now - T < 90 * 60 * 1000`. -/
theorem throttleBlocked_iff (now T : Millis) (r : Reminder)
    (hT : r.lastTriggeredAt = some T) :
    throttleBlocked now r = true ↔ now - T < 90 * 60 * 1000 := by
  simp only [throttleBlocked, hT, decide_eq_true_eq]
  rw [div_lt_iff₀ (by norm_num : (0 : ℚ) < 60000)]
  constructor
  · intro h
    exact_mod_cast h
  · intro h
    exact_mod_cast h

/-- With the day filter, throttle and keyword gates open, a candidate is
handled by the places step. -/
theorem processCandidate_gates_open (env : ScanEnv) (r : Reminder)
    (hday : dayMismatch env.tzMin env.now r = false)
    (hthr : throttleBlocked env.now r = false)
    (htitle : r.title ≠ "") :
    processCandidate env r = placesStep env r := by
  simp [processCandidate, hday, hthr, htitle]

/-- The collision step yields either the `collision` skip with the 6-minute
retry hint, or a `triggered` outcome carrying the gated distance. -/
theorem collisionStep_cases (env : ScanEnv) (r : Reminder) (p : Place) (d : Int) :
    collisionStep env r p d = ScanOutcome.collision (6 * 60 * 1000) ∨
      ∃ rem h, collisionStep env r p d = ScanOutcome.triggered d rem h := by
  unfold collisionStep
  dsimp only
  split
  · exact Or.inl rfl
  · exact Or.inr ⟨_, _, rfl⟩

/-! ## Claim C3 — heuristic slot finder horizon -/

/-- C3: for every user and every current time `now`, the heuristic slot finder
(`findSmartSlot`) returns either `null` or a time `t` with
`now + 1h ≤ t ≤ now + 7d`, whose local hour lies in `[09:00, 18:00)`, and
which never equals the exact `startTime` of any existing reminder of that
user (`existing` is the list of start dates of the reminders of the user). -/
theorem findSmartSlot_horizon (tzMin : Int) (now : Millis)
    (existing : List (Option Millis)) (t : Millis)
    (h : findSmartSlot tzMin now existing = some t) :
    now + msPerHour ≤ t ∧ t ≤ now + horizonMs ∧
    9 ≤ jsGetHours tzMin t ∧ jsGetHours tzMin t < 18 ∧
    ∀ s ∈ existing, s ≠ some t := by
  have hmem : t ∈ slotTimes now := List.mem_of_find?_eq_some h
  have hfree : slotFree tzMin (busyTimes now existing) t = true := List.find?_some h
  obtain ⟨i, hi, ht⟩ : ∃ i : Nat, i < 168 ∧ now + ((i : Int) + 1) * msPerHour = t := by
    unfold slotTimes at hmem
    obtain ⟨i, hir, ht⟩ := List.mem_map.1 hmem
    exact ⟨i, List.mem_range.1 hir, ht⟩
  have hms : msPerHour = 3600000 := by norm_num [msPerHour]
  have hhz : horizonMs = 604800000 := by norm_num [horizonMs]
  have h0 : (0 : Int) ≤ (i : Int) := Int.natCast_nonneg i
  have h167 : (i : Int) ≤ 167 := by exact_mod_cast Nat.lt_succ_iff.mp hi
  have hlow : now + msPerHour ≤ t := by
    rw [← ht, hms]
    nlinarith [h0]
  have hhigh : t ≤ now + horizonMs := by
    rw [← ht, hms, hhz]
    nlinarith [h167]
  simp only [slotFree, Bool.and_eq_true, decide_eq_true_eq, Bool.not_eq_true] at hfree
  obtain ⟨⟨h9, h18⟩, hnc⟩ := hfree
  refine ⟨hlow, hhigh, h9, h18, ?_⟩
  intro s hs heq
  subst heq
  have htmem : t ∈ busyTimes now existing := by
    unfold busyTimes
    refine List.mem_filter.2 ⟨List.mem_filterMap.2 ⟨some t, hs, rfl⟩, ?_⟩
    simp only [Bool.and_eq_true, decide_eq_true_eq]
    constructor
    · rw [hms] at hlow
      linarith [hlow]
    · exact hhigh
  have : t ∉ busyTimes now existing := by simpa using hnc
  exact this htmem

/-- Witness for C3 at a concrete input: with no existing reminders, UTC
timezone, `now = 0`, the slot finder returns 09:00 of day one. -/
theorem findSmartSlot_horizon_witness :
    findSmartSlot 0 0 [] = some 32400000 ∧
    (0 + msPerHour ≤ 32400000 ∧ 32400000 ≤ 0 + horizonMs ∧
     9 ≤ jsGetHours 0 32400000 ∧ jsGetHours 0 32400000 < 18 ∧
     ∀ s ∈ ([] : List (Option Millis)), s ≠ some 32400000) :=
  ⟨by decide, findSmartSlot_horizon 0 0 [] 32400000 (by decide)⟩

/-! ## Claim C1 — validation of the AI schedule decision -/

/-- JS `new Date(string)` parsing, restricted to the single ISO literal used
in the C1 counterexample: 1970-01-15T00:00:00.000Z is millisecond
1,209,600,000 (fourteen days after the epoch). -/
def parseDateJan15 : String → Option Millis :=
  fun s => if s = "1970-01-15T00:00:00.000Z" then some 1209600000 else none

/-- A well-formed one-day Gemini response whose start time lies fourteen days
in the future — twice the 7-day horizon. -/
def geminiRawBeyondHorizon : GeminiRawSchedule :=
  { startDateISO := some "1970-01-15T00:00:00.000Z",
    scheduleType := some "one-day",
    scheduleDays := some [],
    scheduleTime := some ⟨some 10, none⟩ }

/-- Counterexample to C1 as stated: at `now = 0`, a one-day response whose
start time is 14 days away — strictly in the future but far beyond the 7-day
horizon — is accepted by the validation of `suggestFullScheduleWithGemini`
(the code checks only `d <= now` and `isNaN`, never the horizon). -/
theorem validateGeminiSchedule_accepts_beyond_horizon :
    validateGeminiSchedule parseDateJan15 0 geminiRawBeyondHorizon =
      some (sanitizeSchedule geminiRawBeyondHorizon) ∧
    (sanitizeSchedule geminiRawBeyondHorizon).scheduleType = "one-day" ∧
    (sanitizeSchedule geminiRawBeyondHorizon).startDateISO =
      some "1970-01-15T00:00:00.000Z" ∧
    parseDateJan15 "1970-01-15T00:00:00.000Z" = some 1209600000 ∧
    ¬(1209600000 ≤ 0 + horizonMs) := by
  refine ⟨by decide, by decide, by decide, by decide, ?_⟩
  norm_num [horizonMs]

/-- C1 (amended): the validation of `suggestFullScheduleWithGemini` accepts a
one-day decision exactly when the sanitized `startDateISO` is present, parses
to a valid date, and that date is strictly in the future — no 7-day-horizon
check is performed; a routine decision is accepted exactly when a truthy
`fixedTime` is present. -/
theorem validateGeminiSchedule_iff (parseDate : String → Option Millis)
    (now : Millis) (raw : GeminiRawSchedule) :
    (validateGeminiSchedule parseDate now raw).isSome = true ↔
      (((sanitizeSchedule raw).scheduleType = "one-day" ∧
        ∃ str d, (sanitizeSchedule raw).startDateISO = some str ∧
          parseDate str = some d ∧ now < d) ∨
       ((sanitizeSchedule raw).scheduleType = "routine" ∧
        jsTruthyStr (sanitizeSchedule raw).fixedTime = true)) := by
  have htype : (sanitizeSchedule raw).scheduleType = "one-day" ∨
      (sanitizeSchedule raw).scheduleType = "routine" := by
    unfold sanitizeSchedule
    dsimp only
    split
    · exact Or.inr rfl
    · exact Or.inl rfl
  unfold validateGeminiSchedule
  rcases htype with h1 | h1
  · rw [if_pos h1]
    cases hiso : (sanitizeSchedule raw).startDateISO with
    | none =>
      simp [hiso, h1]
    | some str =>
      cases hd : parseDate str with
      | none =>
        simp [hiso, hd, h1]
      | some d =>
        by_cases hle : d ≤ now
        · simp only [hiso, hd, if_pos hle]
          simp only [Option.isSome_none, h1]
          constructor
          · intro hfalse
            exact absurd hfalse (by simp)
          · rintro (⟨_, str2, d2, hstr2, hd2, hnow⟩ | ⟨hr, _⟩)
            · injection hstr2 with hstr2e
              subst hstr2e
              rw [hd] at hd2
              injection hd2 with hd2e
              subst hd2e
              exact absurd hnow (not_lt.mpr hle)
            · exact absurd hr (by decide)
        · simp only [hiso, hd, if_neg hle]
          simp only [Option.isSome_some, true_iff]
          exact Or.inl ⟨h1, str, d, rfl, hd, lt_of_not_le hle⟩
  · have hne : ¬((sanitizeSchedule raw).scheduleType = "one-day") := by
      rw [h1]
      decide
    rw [if_neg hne]
    by_cases hft : jsTruthyStr (sanitizeSchedule raw).fixedTime = true
    · simp only [if_pos hft, Option.isSome_some, true_iff]
      exact Or.inr ⟨h1, hft⟩
    · simp only [if_neg hft, Option.isSome_none]
      constructor
      · intro hfalse
        exact absurd hfalse (by simp)
      · rintro (⟨ho, _⟩ | ⟨_, htr⟩)
        · exact absurd ho hne
        · exact absurd htr hft

/-! ## Claim C2 — deterministic fallback of the schedule resolver -/

/-- When the Gemini schedule capability throws, is unavailable, or returns
nothing, the resolution block falls back to `findSmartSlot`. -/
theorem resolveSchedule_failed (gSched : GeminiCall ParsedSchedule)
    (tzMin : Int) (now : Millis) (existing : List (Option Millis))
    (hfail : gSched = GeminiCall.throws ∨ gSched = GeminiCall.unavailable ∨
      gSched = GeminiCall.returns none) :
    resolveSchedule gSched tzMin now existing =
      match findSmartSlot tzMin now existing with
      | some t =>
        ⟨some ⟨some t, some "one-day", some [], some ⟨some 10, none⟩⟩, some "fallback"⟩
      | none => ⟨none, none⟩ := by
  rcases hfail with h | h | h <;> subst h <;> rfl

/-- Applying the fallback one-day schedule writes exactly the schedule
fields: start date, type, days, time, the 10-minute lead, and the audit
flag. -/
theorem applySchedule_fallback (r : Reminder) (t : Millis) :
    applySchedule r ⟨some t, some "one-day", some [], some ⟨some 10, none⟩⟩ =
      { r with
          startDate := some t,
          scheduleType := some "one-day",
          scheduleDays := some [],
          scheduleTime := some ⟨some 10, none⟩,
          notificationPreferenceMinutes := 10,
          aiSuggested := true } := by
  rfl

/-- Unfolding of `processBackgroundAI` when the schedule stage applies and
resolution produced a schedule. -/
theorem processBackgroundAI_eq_of_resolved (gSched : GeminiCall ParsedSchedule)
    (gLine : GeminiCall String) (synth : String → String → Option (List Nat × String))
    (dv : Option String) (tzMin : Int) (now : Millis) (existing : List (Option Millis))
    (r : Reminder) (user : Option UserInfo) (s : ParsedSchedule) (src : Option String)
    (hcond : (!r.isManualSchedule && r.type == RKind.Task && r.startDate.isNone) = true)
    (hres : resolveSchedule gSched tzMin now existing = ⟨some s, src⟩) :
    processBackgroundAI gSched gLine synth dv tzMin now existing r user =
      (if (lineStage gLine (applySchedule r s) user).1.startDate.isSome then
        ⟨(ensureReminderTTS synth dv none (lineStage gLine (applySchedule r s) user).1
            user now).reminder,
          src, (lineStage gLine (applySchedule r s) user).2, true⟩
      else ⟨(lineStage gLine (applySchedule r s) user).1, src,
        (lineStage gLine (applySchedule r s) user).2, false⟩) := by
  unfold processBackgroundAI scheduleStage
  rw [hcond, hres]
  rfl

/-- Unfolding of `processBackgroundAI` when the schedule stage applies and
resolution produced nothing. -/
theorem processBackgroundAI_eq_of_unresolved (gSched : GeminiCall ParsedSchedule)
    (gLine : GeminiCall String) (synth : String → String → Option (List Nat × String))
    (dv : Option String) (tzMin : Int) (now : Millis) (existing : List (Option Millis))
    (r : Reminder) (user : Option UserInfo) (src : Option String)
    (hcond : (!r.isManualSchedule && r.type == RKind.Task && r.startDate.isNone) = true)
    (hres : resolveSchedule gSched tzMin now existing = ⟨none, src⟩) :
    processBackgroundAI gSched gLine synth dv tzMin now existing r user =
      (if (lineStage gLine r user).1.startDate.isSome then
        ⟨(ensureReminderTTS synth dv none (lineStage gLine r user).1 user now).reminder,
          src, (lineStage gLine r user).2, true⟩
      else ⟨(lineStage gLine r user).1, src, (lineStage gLine r user).2, false⟩) := by
  unfold processBackgroundAI scheduleStage
  rw [hcond, hres]
  rfl

/-- C2: for every reminder with kind Task, `isManualSchedule` false and no
start time, if the AI schedule capability throws, is unavailable, or its
response is invalid (`null`), the resolver still produces a decision through
the deterministic heuristic — a one-day schedule at the first free slot with
`minutesBeforeStart = 10` and `notificationPreferenceMinutes = 10`, tagged
`'fallback'` — or leaves the reminder unscheduled when no free slot exists;
the failure is never propagated (every failure mode yields the exact same
total result as a `null` response). -/
theorem processBackgroundAI_fallback (gSched : GeminiCall ParsedSchedule)
    (gLine : GeminiCall String) (synth : String → String → Option (List Nat × String))
    (dv : Option String) (tzMin : Int) (now : Millis) (existing : List (Option Millis))
    (r : Reminder) (user : Option UserInfo)
    (hk : r.type = RKind.Task) (hm : r.isManualSchedule = false)
    (hs : r.startDate = none)
    (hfail : gSched = GeminiCall.throws ∨ gSched = GeminiCall.unavailable ∨
      gSched = GeminiCall.returns none) :
    (∀ t, findSmartSlot tzMin now existing = some t →
      ((processBackgroundAI gSched gLine synth dv tzMin now existing r user).reminder.startDate
          = some t ∧
       (processBackgroundAI gSched gLine synth dv tzMin now existing r user).reminder.scheduleType
          = some "one-day" ∧
       (processBackgroundAI gSched gLine synth dv tzMin now existing r user).reminder.scheduleDays
          = some [] ∧
       (processBackgroundAI gSched gLine synth dv tzMin now existing r user).reminder.scheduleTime
          = some ⟨some 10, none⟩ ∧
       (processBackgroundAI gSched gLine synth dv tzMin now existing r user).reminder.notificationPreferenceMinutes
          = 10 ∧
       (processBackgroundAI gSched gLine synth dv tzMin now existing r user).reminder.aiSuggested
          = true ∧
       (processBackgroundAI gSched gLine synth dv tzMin now existing r user).scheduleSource
          = some "fallback")) ∧
    (findSmartSlot tzMin now existing = none →
      ((processBackgroundAI gSched gLine synth dv tzMin now existing r user).reminder.startDate
          = none ∧
       (processBackgroundAI gSched gLine synth dv tzMin now existing r user).scheduleSource
          = none)) ∧
    processBackgroundAI gSched gLine synth dv tzMin now existing r user =
      processBackgroundAI (GeminiCall.returns none) gLine synth dv tzMin now existing r user := by
  have hcond : (!r.isManualSchedule && r.type == RKind.Task && r.startDate.isNone) = true := by
    rw [hm, hk, hs]
    rfl
  refine ⟨?_, ?_, ?_⟩
  · intro t hslot
    have hres := resolveSchedule_failed gSched tzMin now existing hfail
    rw [hslot] at hres
    rw [processBackgroundAI_eq_of_resolved gSched gLine synth dv tzMin now existing r user
      _ _ hcond hres]
    rw [applySchedule_fallback]
    obtain ⟨l, hl⟩ := lineStage_line_only gLine
      { r with
          startDate := some t,
          scheduleType := some "one-day",
          scheduleDays := some [],
          scheduleTime := some ⟨some 10, none⟩,
          notificationPreferenceMinutes := 10,
          aiSuggested := true } user
    rw [hl]
    obtain ⟨tt, htt⟩ := ensureReminderTTS_tts_only synth dv none
      { r with
          startDate := some t,
          scheduleType := some "one-day",
          scheduleDays := some [],
          scheduleTime := some ⟨some 10, none⟩,
          notificationPreferenceMinutes := 10,
          aiSuggested := true,
          aiNotificationLine := l } user now
    simp only [Option.isSome_some, if_true]
    rw [htt]
    simp
  · intro hslot
    have hres := resolveSchedule_failed gSched tzMin now existing hfail
    rw [hslot] at hres
    rw [processBackgroundAI_eq_of_unresolved gSched gLine synth dv tzMin now existing r user
      _ hcond hres]
    obtain ⟨l, hl⟩ := lineStage_line_only gLine r user
    rw [hl]
    have hsd : ({ r with aiNotificationLine := l } : Reminder).startDate = none := hs
    rw [hsd]
    simp only [Option.isSome_none, Bool.false_eq_true, if_false]
    simp [hs]
  · rcases hfail with h | h | h <;> subst h <;> rfl

/-- Witness for C2: a concrete unscheduled Task, a throwing Gemini capability
and an empty busy list; the fallback slot is 09:00 of day one after the
epoch. -/
theorem processBackgroundAI_fallback_witness :
    (processBackgroundAI GeminiCall.throws GeminiCall.unavailable
        (fun _ _ => none) none 0 0 []
        ⟨1, RKind.Task, "write report", "", none, false, none, none, none, 10, false,
          none, none, "active", none, none, false, none, none⟩
        none).reminder.startDate = some 32400000 ∧
    (processBackgroundAI GeminiCall.throws GeminiCall.unavailable
        (fun _ _ => none) none 0 0 []
        ⟨1, RKind.Task, "write report", "", none, false, none, none, none, 10, false,
          none, none, "active", none, none, false, none, none⟩
        none).scheduleSource = some "fallback" := by
  have h := processBackgroundAI_fallback GeminiCall.throws GeminiCall.unavailable
    (fun _ _ => none) none 0 0 []
    ⟨1, RKind.Task, "write report", "", none, false, none, none, none, 10, false,
      none, none, "active", none, none, false, none, none⟩
    none rfl rfl rfl (Or.inl rfl)
  have h1 := h.1 32400000 (by decide)
  exact ⟨h1.1, h1.2.2.2.2.2.2⟩

/-! ## Claim C4 — anti-spam throttle -/

/-- A candidate whose throttle gate is open is never skipped with
`anti_spam_window`. -/
theorem processCandidate_ne_antiSpam (env : ScanEnv) (r : Reminder)
    (hb : throttleBlocked env.now r = false) (q : ℚ) :
    processCandidate env r ≠ ScanOutcome.antiSpamWindow q := by
  unfold processCandidate
  split
  · simp
  · rw [hb]
    simp only [Bool.false_eq_true, if_false]
    split
    · simp
    · unfold placesStep
      split
      · simp
      · simp
      · unfold distanceStep
        split
        · dsimp only
          split
          · simp
          · rcases collisionStep_cases env r _ _ with h | ⟨rem, hh, h⟩ <;> rw [h] <;> simp
        · simp

/-- C4: for every Location reminder with `lastTriggeredAt = T` considered on
an active day, a scan at `now = T + Δ` with `Δ < 90` minutes yields the
`anti_spam_window` skip (reporting the minutes elapsed); with `Δ ≥ 90`
minutes the throttle no longer blocks (the outcome is never
`anti_spam_window`); and a reminder with `lastTriggeredAt` unset is never
throttled. -/
theorem throttle_gate :
    (∀ (env : ScanEnv) (r : Reminder) (T : Millis),
      dayMismatch env.tzMin env.now r = false →
      r.lastTriggeredAt = some T →
      env.now - T < 90 * 60 * 1000 →
      processCandidate env r = ScanOutcome.antiSpamWindow ((env.now - T : ℚ) / 60000)) ∧
    (∀ (env : ScanEnv) (r : Reminder) (T : Millis),
      r.lastTriggeredAt = some T →
      90 * 60 * 1000 ≤ env.now - T →
      ∀ q, processCandidate env r ≠ ScanOutcome.antiSpamWindow q) ∧
    (∀ (env : ScanEnv) (r : Reminder),
      r.lastTriggeredAt = none →
      ∀ q, processCandidate env r ≠ ScanOutcome.antiSpamWindow q) := by
  refine ⟨?_, ?_, ?_⟩
  · intro env r T hday hlt hdelta
    have hb : throttleBlocked env.now r = true := (throttleBlocked_iff env.now T r hlt).mpr hdelta
    have hmin : minutesSince env.now r = ((env.now - T : ℚ) / 60000) := by
      simp [minutesSince, hlt]
    rw [← hmin]
    simp [processCandidate, hday, hb]
  · intro env r T hlt hdelta q
    have hb : throttleBlocked env.now r = false := by
      rw [← Bool.not_eq_true]
      intro hcontra
      exact absurd ((throttleBlocked_iff env.now T r hlt).mp hcontra) (not_lt.mpr hdelta)
    exact processCandidate_ne_antiSpam env r hb q
  · intro env r hlt q
    have hb : throttleBlocked env.now r = false := by
      simp [throttleBlocked, hlt]
    exact processCandidate_ne_antiSpam env r hb q

/-- Trivial exact rational stand-ins for the JS Math functions, used by the
concrete witnesses. -/
def floatOpsZero : FloatOps :=
  ⟨fun _ => 0, fun _ => 0, fun _ _ => 0, fun _ => 0, 0⟩

/-- A concrete scan environment for the witnesses: caller at the origin at
`now = 1000` ms, no environment override, a places capability that finds
nothing, no Gemini, no synthesizer, no other reminders. -/
def scanEnvQuiet : ScanEnv :=
  { F := floatOpsZero, tzMin := 0, now := 1000, lat := 0, lng := 0,
    envMaxMeters := none, places := fun _ => PlacesResult.ok none,
    gLine := fun _ => GeminiCall.unavailable, synth := fun _ _ => none,
    defaultVoiceId := none, userReminders := [], user := none }

/-- A concrete Location reminder last triggered at the epoch. -/
def locRemThrottled : Reminder :=
  ⟨2, RKind.Location, "Gym", "", none, false, none, none, none, 10, false,
    none, none, "active", some 0, none, false, none, none⟩

/-- Witness for C4 at a concrete input: one second after a trigger the scan
skips with `anti_spam_window`. -/
theorem throttle_gate_witness :
    dayMismatch scanEnvQuiet.tzMin scanEnvQuiet.now locRemThrottled = false ∧
    locRemThrottled.lastTriggeredAt = some 0 ∧
    processCandidate scanEnvQuiet locRemThrottled =
      ScanOutcome.antiSpamWindow ((scanEnvQuiet.now - (0 : Int) : ℚ) / 60000) :=
  ⟨by decide, rfl,
    throttle_gate.1 scanEnvQuiet locRemThrottled 0 (by decide) rfl (by decide)⟩

/-! ## Claim C5 — distance gate boundary -/

/-- JS `Math.round` of the successor of an integer-valued rational. -/
theorem jsRound_intCast_add_one (m : Int) : jsRound ((m : ℚ) + 1) = m + 1 := by
  have : ((m : ℚ) + 1) = ((m + 1 : Int) : ℚ) := by push_cast; ring
  rw [this, jsRound_intCast]

/-- C5: the distance gate rounds the haversine distance (spherical earth,
radius 6,371,000 m — the formula is `haversineMeters`) and compares it with
the configurable maximum `maxMeters` (default 60 m, floor 10 m): a place at
exactly the maximum distance is accepted and handed to the collision gate,
while a place one meter beyond is rejected with the `too_far` skip; past the
gate the only outcomes are `collision` or `triggered`. -/
theorem distance_gate :
    maxMeters none = 60 ∧
    (∀ v, maxMeters (some v) = max 10 v ∧ 10 ≤ maxMeters (some v)) ∧
    (∀ (env : ScanEnv) (r : Reminder) (p : Place) (plat plng : ℚ),
      dayMismatch env.tzMin env.now r = false →
      throttleBlocked env.now r = false →
      r.title ≠ "" →
      env.places r.title = PlacesResult.ok (some p) →
      p.locLat = some plat → p.locLng = some plng →
      haversineMeters env.F env.lat env.lng plat plng = (maxMeters env.envMaxMeters : ℚ) →
      processCandidate env r = collisionStep env r p (maxMeters env.envMaxMeters)) ∧
    (∀ (env : ScanEnv) (r : Reminder) (p : Place) (plat plng : ℚ),
      dayMismatch env.tzMin env.now r = false →
      throttleBlocked env.now r = false →
      r.title ≠ "" →
      env.places r.title = PlacesResult.ok (some p) →
      p.locLat = some plat → p.locLng = some plng →
      haversineMeters env.F env.lat env.lng plat plng =
        (maxMeters env.envMaxMeters : ℚ) + 1 →
      processCandidate env r =
        ScanOutcome.tooFar (some (maxMeters env.envMaxMeters + 1))
          (maxMeters env.envMaxMeters)) ∧
    (∀ (env : ScanEnv) (r : Reminder) (p : Place) (d : Int),
      collisionStep env r p d = ScanOutcome.collision (6 * 60 * 1000) ∨
      ∃ rem h, collisionStep env r p d = ScanOutcome.triggered d rem h) := by
  refine ⟨rfl, ?_, ?_, ?_, collisionStep_cases⟩
  · intro v
    exact ⟨rfl, le_max_left 10 v⟩
  · intro env r p plat plng hday hthr htitle hplaces hlat hlng hdist
    rw [processCandidate_gates_open env r hday hthr htitle]
    unfold placesStep
    rw [hplaces]
    dsimp only
    unfold distanceStep
    rw [hlat, hlng]
    dsimp only
    rw [hdist, jsRound_intCast]
    simp [lt_irrefl]
  · intro env r p plat plng hday hthr htitle hplaces hlat hlng hdist
    rw [processCandidate_gates_open env r hday hthr htitle]
    unfold placesStep
    rw [hplaces]
    dsimp only
    unfold distanceStep
    rw [hlat, hlng]
    dsimp only
    rw [hdist, jsRound_intCast_add_one]
    simp [Int.lt_add_one_iff]

/-- Rational stand-ins for the Math functions chosen so that the haversine
value at the witness coordinates is exactly 60 m:
`6371000 * (2 * (30 / 6371000)) = 60`. -/
def floatOpsSixty : FloatOps :=
  ⟨fun _ => 0, fun _ => 0, fun _ _ => 30 / 6371000, fun _ => 0, 0⟩

/-- A resolved place at the origin. -/
def placeAtOrigin : Place :=
  ⟨some "p1", some "Cafe", some 4, some 0, some 0⟩

/-- A scan environment whose places capability resolves `placeAtOrigin` and
whose Math stand-ins make the distance exactly 60 m. -/
def scanEnvSixty : ScanEnv :=
  { F := floatOpsSixty, tzMin := 0, now := 1000, lat := 0, lng := 0,
    envMaxMeters := none, places := fun _ => PlacesResult.ok (some placeAtOrigin),
    gLine := fun _ => GeminiCall.unavailable, synth := fun _ _ => none,
    defaultVoiceId := none, userReminders := [], user := none }

/-- A concrete never-triggered Location reminder. -/
def locRemFresh : Reminder :=
  ⟨3, RKind.Location, "Gym", "", none, false, none, none, none, 10, false,
    none, none, "active", none, none, false, none, none⟩

/-- Witness for C5 at a concrete input: a place at exactly the default 60 m
maximum passes the distance gate and reaches the collision gate. -/
theorem distance_gate_witness :
    haversineMeters scanEnvSixty.F scanEnvSixty.lat scanEnvSixty.lng 0 0 =
      (maxMeters scanEnvSixty.envMaxMeters : ℚ) ∧
    processCandidate scanEnvSixty locRemFresh =
      collisionStep scanEnvSixty locRemFresh placeAtOrigin
        (maxMeters scanEnvSixty.envMaxMeters) :=
  ⟨by norm_num [haversineMeters, scanEnvSixty, floatOpsSixty, maxMeters],
    distance_gate.2.2.1 scanEnvSixty locRemFresh placeAtOrigin 0 0 (by decide) (by decide)
      (by decide) rfl rfl rfl
      (by norm_num [haversineMeters, scanEnvSixty, floatOpsSixty, maxMeters, placeAtOrigin])⟩

/-! ## Claim C6 — collision gate -/

/-- C6: a Location trigger that reached the collision gate (all earlier gates
open, distance within the maximum) is skipped with reason `collision` and the
suggested 6-minute (360,000 ms) retry delay exactly when the user owns a
non-completed Task or Meeting whose `startTime` lies in the inclusive window
`[now - 5min, now + 5min]`; in particular a start time at `now + 4min59s`
collides and one at `now + 5min01s` does not. -/
theorem collision_gate :
    (∀ (rs : List Reminder) (now : Millis),
      hasCollisionWithinFiveMin rs now = true ↔
        ∃ x ∈ rs, (x.type = RKind.Task ∨ x.type = RKind.Meeting) ∧
          x.isCompleted = false ∧
          ∃ s, x.startDate = some s ∧
            now - 5 * 60 * 1000 ≤ s ∧ s ≤ now + 5 * 60 * 1000) ∧
    (∀ (env : ScanEnv) (r : Reminder) (p : Place) (plat plng : ℚ),
      dayMismatch env.tzMin env.now r = false →
      throttleBlocked env.now r = false →
      r.title ≠ "" →
      env.places r.title = PlacesResult.ok (some p) →
      p.locLat = some plat → p.locLng = some plng →
      jsRound (haversineMeters env.F env.lat env.lng plat plng) ≤
        maxMeters env.envMaxMeters →
      (processCandidate env r = ScanOutcome.collision (6 * 60 * 1000) ↔
        hasCollisionWithinFiveMin env.userReminders env.now = true)) ∧
    (∀ now : Millis,
      hasCollisionWithinFiveMin
        [⟨4, RKind.Task, "standup", "", some (now + 299000), true, none, none, none,
          10, false, none, none, "active", none, none, false, none, none⟩] now = true ∧
      hasCollisionWithinFiveMin
        [⟨4, RKind.Task, "standup", "", some (now + 301000), true, none, none, none,
          10, false, none, none, "active", none, none, false, none, none⟩] now = false) := by
  refine ⟨?_, ?_, ?_⟩
  · intro rs now
    unfold hasCollisionWithinFiveMin
    rw [List.any_eq_true]
    constructor
    · rintro ⟨x, hx, hpred⟩
      refine ⟨x, hx, ?_⟩
      revert hpred
      cases hsd : x.startDate with
      | none =>
        intro hpred
        simp at hpred
      | some s =>
        intro hpred
        simp only [Bool.and_eq_true, Bool.or_eq_true, beq_iff_eq, Bool.not_eq_true',
          decide_eq_true_eq] at hpred
        exact ⟨hpred.1.1, hpred.1.2, s, rfl, hpred.2.1, hpred.2.2⟩
    · rintro ⟨x, hx, hty, hcomp, s, hsd, h1, h2⟩
      refine ⟨x, hx, ?_⟩
      simp only [hsd, Bool.and_eq_true, Bool.or_eq_true, beq_iff_eq, Bool.not_eq_true',
        decide_eq_true_eq]
      exact ⟨⟨hty, hcomp⟩, h1, h2⟩
  · intro env r p plat plng hday hthr htitle hplaces hlat hlng hdle
    rw [processCandidate_gates_open env r hday hthr htitle]
    unfold placesStep
    rw [hplaces]
    dsimp only
    unfold distanceStep
    rw [hlat, hlng]
    dsimp only
    rw [if_neg (not_lt.mpr hdle)]
    unfold collisionStep
    cases hb : hasCollisionWithinFiveMin env.userReminders env.now with
    | false => simp [hb]
    | true => simp [hb]
  · intro now
    constructor
    · simp only [hasCollisionWithinFiveMin, List.any_cons, List.any_nil, Bool.or_false,
        Bool.and_eq_true, Bool.or_eq_true, beq_iff_eq, Bool.not_eq_true', decide_eq_true_eq]
      refine ⟨⟨Or.inl trivial, trivial⟩, ?_, ?_⟩ <;> linarith
    · rw [Bool.eq_false_iff]
      intro hcontra
      simp only [hasCollisionWithinFiveMin, List.any_cons, List.any_nil, Bool.or_false,
        Bool.and_eq_true, Bool.or_eq_true, beq_iff_eq, Bool.not_eq_true',
        decide_eq_true_eq] at hcontra
      obtain ⟨-, -, hc2⟩ := hcontra
      linarith

/-- The witness environment: like `scanEnvSixty` but with one imminent Task
(start time equal to `now`) owned by the user. -/
def scanEnvCollide : ScanEnv :=
  { scanEnvSixty with
      userReminders :=
        [⟨4, RKind.Task, "standup", "", some 1000, true, none, none, none, 10, false,
          none, none, "active", none, none, false, none, none⟩] }

/-- Witness for C6 at a concrete input: with an imminent Task at `now`, the
candidate that passed the distance gate is skipped with `collision` and the
6-minute retry hint. -/
theorem collision_gate_witness :
    hasCollisionWithinFiveMin scanEnvCollide.userReminders scanEnvCollide.now = true ∧
    processCandidate scanEnvCollide locRemFresh =
      ScanOutcome.collision (6 * 60 * 1000) := by
  have hdle : jsRound (haversineMeters scanEnvCollide.F scanEnvCollide.lat
      scanEnvCollide.lng 0 0) ≤ maxMeters scanEnvCollide.envMaxMeters := by
    have h60 : haversineMeters scanEnvCollide.F scanEnvCollide.lat scanEnvCollide.lng 0 0
        = ((60 : Int) : ℚ) := by
      norm_num [haversineMeters, scanEnvCollide, scanEnvSixty, floatOpsSixty]
    rw [h60, jsRound_intCast]
    decide
  have hiff := collision_gate.2.1 scanEnvCollide locRemFresh placeAtOrigin 0 0
    (by decide) (by decide) (by decide) rfl rfl rfl hdle
  exact ⟨by decide, hiff.mpr (by decide)⟩

/-! ## Claim C7 — speech stage idempotence -/

/-- C7: calling `ensureReminderTTS` on a reminder whose notification text and
voice are unchanged since a successful earlier synthesis — `tts.textHash`
equals the hash of the (voiceId, current text) pair, `tts.status` is `ready`,
and the stored audio is non-empty — returns the reminder unchanged and
performs no synthesis call at all. -/
theorem ensureReminderTTS_idempotent (synth : String → String → Option (List Nat × String))
    (dv ov : Option String) (r : Reminder) (user : Option UserInfo) (now : Millis)
    (t : TTSRecord) (a : TTSAudio)
    (ht : r.tts = some t) (hst : t.status = "ready") (ha : t.audio = some a)
    (hne : a.data ≠ [])
    (hh : t.textHash = some (computeTextHash (buildNotificationText r user)
      (strOrUndefined (resolveVoiceId ov r dv)))) :
    ensureReminderTTS synth dv ov r user now = ⟨r, 0, false⟩ := by
  have hup : ttsUpToDate r (computeTextHash (buildNotificationText r user)
      (strOrUndefined (resolveVoiceId ov r dv))) = true := by
    unfold ttsUpToDate
    rw [ht]
    dsimp only
    rw [hh, hst, ha]
    dsimp only
    simp [List.length_eq_zero, hne]
  unfold ensureReminderTTS
  dsimp only
  rw [hup]
  rfl

/-- A reminder carrying a ready, non-empty, hash-matching tts record for its
cached line "Hello." and voice "v". -/
def readyRemC7 : Reminder :=
  ⟨5, RKind.Task, "write report", "", some 1000, false, none, none, none, 10, false,
    some "Hello.", none, "active", none, none, false, none,
    some ⟨some "v", some (computeTextHash "Hello." "v"), some ⟨[1], "audio/mpeg", 1⟩,
      "ready", some 0⟩⟩

/-- Witness for C7 at a concrete input: the hash matches, so a second call
returns the reminder unchanged with zero synthesis calls. -/
theorem ensureReminderTTS_idempotent_witness :
    ensureReminderTTS (fun _ _ => some ([2], "audio/mpeg")) none none readyRemC7 none 5 =
      ⟨readyRemC7, 0, false⟩ :=
  ensureReminderTTS_idempotent (fun _ _ => some ([2], "audio/mpeg")) none none readyRemC7
    none 5 _ _ rfl rfl rfl (by decide) (by decide)

/-! ## Claim C8 — tts record invariant -/

/-- A Location reminder (no start date) whose tts record is ready and
consistent with its cached line "L1" and voice "v". -/
def locStaleC8 : Reminder :=
  ⟨6, RKind.Location, "Pharmacy", "", none, false, none, none, none, 10, false,
    some "L1", none, "active", some 0, none, false, none,
    some ⟨some "v", some (computeTextHash "L1" "v"), some ⟨[1], "audio/mpeg", 1⟩,
      "ready", some 0⟩⟩

/-- Counterexample to C8 as stated: an enrichment pass that replaces the
cached line of a reminder without a start time (here Gemini returns the new
line "L2") skips the speech stage, leaving `tts.status = ready` with a
`textHash` that no longer matches the hash of the currently active
notification text — the claimed invariant is violated by
`processBackgroundAI` itself. -/
theorem processBackgroundAI_stale_ready_hash :
    (processBackgroundAI GeminiCall.unavailable (GeminiCall.returns (some "L2"))
        (fun _ _ => some ([2], "audio/mpeg")) none 0 0 [] locStaleC8 none).reminder.tts =
      some ⟨some "v", some (computeTextHash "L1" "v"), some ⟨[1], "audio/mpeg", 1⟩,
        "ready", some 0⟩ ∧
    (processBackgroundAI GeminiCall.unavailable (GeminiCall.returns (some "L2"))
        (fun _ _ => some ([2], "audio/mpeg")) none 0 0 [] locStaleC8 none).reminder.aiNotificationLine =
      some "L2" ∧
    buildNotificationText (processBackgroundAI GeminiCall.unavailable
        (GeminiCall.returns (some "L2")) (fun _ _ => some ([2], "audio/mpeg")) none 0 0 []
        locStaleC8 none).reminder none = "L2" ∧
    some (computeTextHash "L1" "v") ≠
      some (computeTextHash (buildNotificationText (processBackgroundAI GeminiCall.unavailable
        (GeminiCall.returns (some "L2")) (fun _ _ => some ([2], "audio/mpeg")) none 0 0 []
        locStaleC8 none).reminder none) "v") := by
  refine ⟨by decide, by decide, by decide, by decide⟩

/-- C8 (amended): within the speech stage itself the invariant holds — if
`ensureReminderTTS` leaves `tts.status = ready` then `tts.textHash` is the
hash of (voiceId, the notification text of the reminder as persisted) and,
provided the synthesizer never returns an empty blob, the stored audio is
non-empty; a failed synthesis always leaves status `pending`/`failed`, never
`ready`.  (The enrichment pass restores this only when a start time is
present: see the counterexample.) -/
theorem ensureReminderTTS_ready_invariant
    (synth : String → String → Option (List Nat × String))
    (dv ov : Option String) (r : Reminder) (user : Option UserInfo) (now : Millis)
    (hsynth : ∀ s v a ct, synth s v = some (a, ct) → a ≠ []) :
    ∀ t, (ensureReminderTTS synth dv ov r user now).reminder.tts = some t →
      t.status = "ready" →
      (t.textHash = some (computeTextHash (buildNotificationText r user)
          (strOrUndefined (resolveVoiceId ov r dv))) ∧
       ∃ a, t.audio = some a ∧ a.data ≠ []) := by
  intro t htts hready
  unfold ensureReminderTTS at htts
  dsimp only at htts
  by_cases hup : ttsUpToDate r (computeTextHash (buildNotificationText r user)
      (strOrUndefined (resolveVoiceId ov r dv))) = true
  · rw [if_pos hup] at htts
    unfold ttsUpToDate at hup
    rw [htts] at hup
    dsimp only at hup
    simp only [Bool.and_eq_true, beq_iff_eq] at hup
    refine ⟨hup.1.1, ?_⟩
    cases haud : t.audio with
    | none =>
      rw [haud] at hup
      simp at hup
    | some a =>
      rw [haud] at hup
      refine ⟨a, rfl, ?_⟩
      have := hup.2
      simpa [List.length_eq_zero] using this
  · rw [if_neg hup] at htts
    cases hsy : synth (buildNotificationText r user)
        (strOrUndefined (resolveVoiceId ov r dv)) with
    | some pr =>
      obtain ⟨buffer, contentType⟩ := pr
      rw [hsy] at htts
      dsimp only at htts
      injection htts with he
      refine ⟨?_, ?_⟩
      · rw [← he]
      · refine ⟨⟨buffer, contentType, buffer.length⟩, by rw [← he], ?_⟩
        exact hsynth _ _ _ _ hsy
    | none =>
      rw [hsy] at htts
      dsimp only at htts
      injection htts with he
      rw [← he] at hready
      have hcontra : ("failed" : String) = "ready" := hready
      exact absurd hcontra (by decide)

/-- A fresh reminder with no tts record yet. -/
def freshRemC8 : Reminder :=
  ⟨7, RKind.Task, "write report", "", some 1000, false, none, none, none, 10, false,
    none, none, "active", none, none, false, none, none⟩

/-- A synthesizer stand-in that always returns the one-byte blob. -/
def synthOneByte : String → String → Option (List Nat × String) :=
  fun _ _ => some ([1], "audio/mpeg")

/-- Witness for the amended C8 at a concrete input: after a successful
synthesis the ready record carries the hash of the current text and a
non-empty blob. -/
theorem ensureReminderTTS_ready_invariant_witness :
    ∃ t, (ensureReminderTTS synthOneByte (some "v") none freshRemC8 none 7).reminder.tts =
        some t ∧
      t.status = "ready" ∧
      t.textHash = some (computeTextHash (buildNotificationText freshRemC8 none)
        (strOrUndefined (resolveVoiceId none freshRemC8 (some "v")))) ∧
      ∃ a, t.audio = some a ∧ a.data ≠ [] := by
  have hsynth : ∀ s v a ct, synthOneByte s v = some (a, ct) → a ≠ [] := by
    intro s v a ct h
    simp only [synthOneByte, Option.some.injEq, Prod.mk.injEq] at h
    rw [← h.1]
    decide
  have ht : (ensureReminderTTS synthOneByte (some "v") none freshRemC8 none 7).reminder.tts =
      some ⟨some "v",
        some (computeTextHash (buildNotificationText freshRemC8 none)
          (strOrUndefined (resolveVoiceId none freshRemC8 (some "v")))),
        some ⟨[1], "audio/mpeg", 1⟩, "ready", some 7⟩ := by decide
  have hmain := ensureReminderTTS_ready_invariant synthOneByte (some "v") none freshRemC8
    none 7 hsynth _ ht rfl
  exact ⟨_, ht, rfl, hmain.1, hmain.2⟩

/-! ## Claim C9 — one outcome per candidate, no batch abort -/

/-- C9: a scan produces exactly one outcome per candidate, in candidate
order (the list of reported reminder ids equals the candidate ids), and a
per-candidate places-lookup failure yields a `places_error` skip for that
candidate while the batch as a whole is still fully processed. -/
theorem scan_outcomes :
    (∀ (env : ScanEnv) (rs : List Reminder),
      (scanAndTrigger env rs).map Prod.fst = (scanCandidates rs).map Reminder.id) ∧
    (∀ (env : ScanEnv) (rs : List Reminder),
      (scanAndTrigger env rs).length = (scanCandidates rs).length) ∧
    (∀ (env : ScanEnv) (rs : List Reminder) (r : Reminder) (m : Option String),
      r ∈ scanCandidates rs →
      dayMismatch env.tzMin env.now r = false →
      throttleBlocked env.now r = false →
      r.title ≠ "" →
      env.places r.title = PlacesResult.error m →
      (r.id, ScanOutcome.placesError m) ∈ scanAndTrigger env rs) := by
  refine ⟨?_, ?_, ?_⟩
  · intro env rs
    unfold scanAndTrigger
    rw [List.map_map]
    rfl
  · intro env rs
    unfold scanAndTrigger
    rw [List.length_map]
  · intro env rs r m hmem hday hthr htitle hplaces
    have hpc : processCandidate env r = ScanOutcome.placesError m := by
      rw [processCandidate_gates_open env r hday hthr htitle]
      unfold placesStep
      rw [hplaces]
    exact List.mem_map.2 ⟨r, hmem, by rw [hpc]⟩

/-- The witness environment for C9: the places capability always throws. -/
def scanEnvPlacesFail : ScanEnv :=
  { scanEnvSixty with places := fun _ => PlacesResult.error (some "boom") }

/-- Witness for C9 at a concrete input: the failing candidate is reported as
`places_error` and the result list still has one entry per candidate. -/
theorem scan_outcomes_witness :
    (locRemFresh.id, ScanOutcome.placesError (some "boom")) ∈
      scanAndTrigger scanEnvPlacesFail [locRemFresh] ∧
    (scanAndTrigger scanEnvPlacesFail [locRemFresh]).length =
      (scanCandidates [locRemFresh]).length :=
  ⟨scan_outcomes.2.2 scanEnvPlacesFail [locRemFresh] locRemFresh (some "boom")
      (by decide) (by decide) (by decide) (by decide) rfl,
    scan_outcomes.2.1 scanEnvPlacesFail [locRemFresh]⟩

/-! ## Claim C10 — cached notification line is frame-preserved -/

/-- The schedule stage never touches the cached notification line. -/
theorem applySchedule_preserves_line (r : Reminder) (s : ParsedSchedule) :
    (applySchedule r s).aiNotificationLine = r.aiNotificationLine := by
  unfold applySchedule
  cases s.startDate <;> dsimp only <;> split <;> (try split) <;> rfl

/-- The schedule-stage block never touches the cached notification line. -/
theorem scheduleStage_preserves_line (gSched : GeminiCall ParsedSchedule) (tzMin : Int)
    (now : Millis) (existing : List (Option Millis)) (r : Reminder) :
    (scheduleStage gSched tzMin now existing r).1.aiNotificationLine =
      r.aiNotificationLine := by
  unfold scheduleStage
  dsimp only
  split
  · split
    · exact applySchedule_preserves_line r _
    · rfl
  · rfl

/-- C10: when a reminder already carries a non-empty `aiNotificationLine` and
the AI line capability throws, is unavailable, or returns nothing, the
enrichment pass leaves `aiNotificationLine` unchanged (the fallback template
is assigned only when the line is absent), and `buildNotificationText`
returns the cached line verbatim for any user and regardless of the kind of
the reminder or any later title edit. -/
theorem cached_line_frame (gSched : GeminiCall ParsedSchedule) (gLine : GeminiCall String)
    (synth : String → String → Option (List Nat × String)) (dv : Option String)
    (tzMin : Int) (now : Millis) (existing : List (Option Millis))
    (r : Reminder) (user : Option UserInfo) (s : String)
    (hline : r.aiNotificationLine = some s) (hs : s ≠ "")
    (hfail : gLine = GeminiCall.throws ∨ gLine = GeminiCall.unavailable ∨
      gLine = GeminiCall.returns none) :
    (processBackgroundAI gSched gLine synth dv tzMin now existing r user).reminder.aiNotificationLine
        = some s ∧
    (∀ u2, buildNotificationText r u2 = s) ∧
    (∀ t2 k u2, buildNotificationText
        { r with title := t2, type := k } u2 = s) := by
  have h1 : (scheduleStage gSched tzMin now existing r).1.aiNotificationLine = some s := by
    rw [scheduleStage_preserves_line]
    exact hline
  have htruthy : jsTruthyStr (scheduleStage gSched tzMin now existing r).1.aiNotificationLine
      = true := by
    rw [h1]
    simp [jsTruthyStr, hs]
  have h2 := lineStage_keeps_truthy_line gLine (scheduleStage gSched tzMin now existing r).1
    user htruthy hfail
  refine ⟨?_, ?_, ?_⟩
  · unfold processBackgroundAI
    dsimp only
    rw [h2]
    dsimp only
    split
    · obtain ⟨tt, htt⟩ := ensureReminderTTS_tts_only synth dv none
        (scheduleStage gSched tzMin now existing r).1 user now
      rw [htt]
      exact h1
    · exact h1
  · intro u2
    unfold buildNotificationText
    rw [hline]
    have : jsTruthyStr (some s) = true := by simp [jsTruthyStr, hs]
    rw [this]
    rfl
  · intro t2 k u2
    unfold buildNotificationText
    dsimp only
    rw [hline]
    have : jsTruthyStr (some s) = true := by simp [jsTruthyStr, hs]
    rw [this]
    rfl

/-- A Location reminder with a cached line and an edited title later on. -/
def locRemCached : Reminder :=
  ⟨8, RKind.Location, "Pharmacy", "", none, false, none, none, none, 10, false,
    some "Grab your meds!", none, "active", none, none, false, none, none⟩

/-- Witness for C10 at a concrete input: a failing line capability leaves the
cached line intact, and the builder returns it verbatim even after a title
edit. -/
theorem cached_line_frame_witness :
    (processBackgroundAI GeminiCall.unavailable GeminiCall.throws (fun _ _ => none)
        none 0 0 [] locRemCached none).reminder.aiNotificationLine =
      some "Grab your meds!" ∧
    buildNotificationText locRemCached none = "Grab your meds!" ∧
    buildNotificationText
      { locRemCached with title := "edited", type := RKind.Task } none =
      "Grab your meds!" := by
  have h := cached_line_frame GeminiCall.unavailable GeminiCall.throws (fun _ _ => none)
    none 0 0 [] locRemCached none "Grab your meds!" rfl (by decide) (Or.inl rfl)
  exact ⟨h.1, h.2.1 none, h.2.2 "edited" RKind.Task none⟩

end Beela
